import Mathlib

/-!
Shallow embedding of the CRUD/validation core of the Html-prime repository
(a TypeScript/Express/TypeORM configuration-management REST API), covering
the OsTemplate and Catalog resource handlers
(app/routes/osTemplate.ts, app/routes/catalog.ts), their referential
integrity checks, pagination, soft delete, and the response envelope.

Conventions of the embedding:
- JavaScript numbers that hold ids, counts or timestamps are modelled as
  Int/Nat; the one place where IEEE-754 non-finite values matter
  (Math.ceil(count / limit)) is modelled by the JsNum type.
- The TypeORM repository is modelled as explicit state passing over DBState;
  findOneBy / findOne exclude soft-deleted rows (DeleteDateColumn), save
  replaces the row with the same primary key and refreshes updatedAt
  (UpdateDateColumn), softDelete sets deletedAt on the rows matching the id
  and reports the affected count.
- Joi validation of raw request data is modelled over JVal (parsed JSON
  values) and Option String (query-string parameters).  Joi.string()
  accepts only non-empty strings, Joi.number() accepts numbers and numeric
  strings (the embedding restricts numeric strings to an optional minus
  sign followed by digits, which covers every value the handlers are
  exercised with here), Joi.boolean() on a query parameter accepts the
  literals true/false.
- Handler bodies that already passed Joi type checking are passed as typed
  structures (Option-typed fields for partial PUT bodies, mirroring the
  "typeof b.x !== 'undefined'" tests of the source).
-/

/-- Error kinds of app/types/errors/codes.ts as referenced by the handlers. -/
inductive ErrCode where
  | E1001 | E1002 | E1003 | E1004 | E1005 | E1006 | E1007 | E1008
  deriving Repr, DecidableEq

/-- Fixed error messages from app/types/errors/messages.ts. -/
def errMsg : ErrCode → String
  | .E1001 => "Error fetching data from resource"
  | .E1002 => "Error fetching data from resource with provided identifier"
  | .E1003 => "Error creating resource"
  | .E1004 => "Error updating resource with provided identifier"
  | .E1005 => "Error deleting resource with provided identifier"
  | .E1006 => "Unable to find the requested resource with provided identifier"
  | .E1007 => "Validation failed for the provided input"
  | .E1008 => "Error uploading files to resource with provided identifier"

/-- An error envelope payload: the error kind together with the message. -/
structure ApiErr where
  code : ErrCode
  msg : String
  deriving Repr, DecidableEq

/-- Identity of the acting principal, req.user?.id (undefined under the
permissive auth stub). -/
abbrev UserId := Option String

/-- A parsed JSON value as it arrives in a request body or an X-API-* header. -/
inductive JVal where
  | jstr (s : String)
  | jnum (n : Int)
  | jbool (b : Bool)
  | jnull
  deriving Repr, DecidableEq

/-- Character list denotes a base-10 natural number. -/
def digitsToNat (cs : List Char) : Nat :=
  cs.foldl (fun acc c => acc * 10 + (c.toNat - 48)) 0

/-- A numeric string: optional minus sign followed by at least one digit.
This is the fragment of the values Joi.number() coerces that the claims
exercise. -/
def numericStr (s : String) : Bool :=
  match s.data with
  | [] => false
  | '-' :: rest => !rest.isEmpty && rest.all Char.isDigit
  | cs => cs.all Char.isDigit

/-- parseInt(s, 10) restricted to fully numeric strings (the handlers only
call it after Joi.number() accepted the value). -/
def parseIntJs (s : String) : Int :=
  match s.data with
  | '-' :: rest => -(digitsToNat rest : Int)
  | cs => (digitsToNat cs : Int)

/-- Joi.string() on a body value: a non-empty string (Joi rejects the empty
string by default and does not coerce other types). -/
def joiStringJ (v : JVal) : Bool :=
  match v with
  | .jstr s => !(s == "")
  | _ => false

/-- Joi.number() on a body value: a number, or a numeric string (convert). -/
def joiNumberJ (v : JVal) : Bool :=
  match v with
  | .jnum _ => true
  | .jstr s => numericStr s
  | _ => false

/-- Joi.string().valid(Standard, Custom), the Catalog.type enum check. -/
def joiCatalogTypeJ (v : JVal) : Bool :=
  v == .jstr "Standard" || v == .jstr "Custom"

/-- Joi.number().optional() on a query-string parameter. -/
def joiNumberQ (v : Option String) : Bool :=
  match v with
  | none => true
  | some s => numericStr s

/-- Joi.boolean().optional() on a query-string parameter (convert accepts
the literals true/false). -/
def joiBooleanQ (v : Option String) : Bool :=
  match v with
  | none => true
  | some s => s == "true" || s == "false"

/-- Row of the os_family table (app/models/osFamily.ts); audit columns not
exercised by the claims are kept to the ones the handlers touch. -/
structure OsFamilyRow where
  id : Int
  name : String
  shortName : String
  deletedAt : Option Int
  deriving Repr, DecidableEq

/-- Row of the location table (app/models/location.ts). -/
structure LocationRow where
  id : Int
  name : String
  availableNetworks : List String
  deletedAt : Option Int
  deriving Repr, DecidableEq

/-- Row of the os_template table (app/models/osTemplate.ts); the ManyToOne
columns osFamily and location are stored as the referenced ids. -/
structure OsTemplateRow where
  id : Int
  name : String
  templateId : String
  osFamily : Int
  location : Int
  availableNetwork : String
  createdBy : UserId
  updatedBy : UserId
  deletedBy : UserId
  createdAt : Int
  updatedAt : Int
  deletedAt : Option Int
  deriving Repr, DecidableEq

/-- Row of the approval_policy table (app/models/approvalPolicy.ts); the
policies json column does not participate in any claim and is kept opaque
as a count of entries. -/
structure ApprovalPolicyRow where
  id : Int
  name : String
  deletedAt : Option Int
  deriving Repr, DecidableEq

/-- The Catalog.type enum literal set. -/
inductive CatalogType where
  | Standard | Custom
  deriving Repr, DecidableEq

/-- Row of the catalog table (app/models/catalog.ts). -/
structure CatalogRow where
  id : Int
  name : String
  icon : Option String
  shortName : String
  defaultTemplate : Int
  defaultApprovalPolicy : Int
  defaultLeasePeriod : Int
  permittedMaxLeaseExtensions : Int
  type : CatalogType
  createdBy : UserId
  updatedBy : UserId
  deletedBy : UserId
  createdAt : Int
  updatedAt : Int
  deletedAt : Option Int
  deriving Repr, DecidableEq

/-- The persistent store: one list per entity table the claims touch, plus
the id generator. -/
structure DBState where
  osFamilies : List OsFamilyRow
  locations : List LocationRow
  osTemplates : List OsTemplateRow
  approvalPolicies : List ApprovalPolicyRow
  catalogs : List CatalogRow
  nextId : Int
  deriving Repr, DecidableEq

/-- OsFamilyRepository.findOneBy with id: soft-deleted rows are excluded. -/
def findOsFamily (s : DBState) (i : Int) : Option OsFamilyRow :=
  s.osFamilies.find? (fun r => r.id == i && r.deletedAt == none)

/-- LocationRepository.findOneBy with id. -/
def findLocation (s : DBState) (i : Int) : Option LocationRow :=
  s.locations.find? (fun r => r.id == i && r.deletedAt == none)

/-- OsTemplateRepository.findOneBy / findOne with where id. -/
def findOsTemplate (s : DBState) (i : Int) : Option OsTemplateRow :=
  s.osTemplates.find? (fun r => r.id == i && r.deletedAt == none)

/-- ApprovalPolicyRepository.findOneBy with id. -/
def findApprovalPolicy (s : DBState) (i : Int) : Option ApprovalPolicyRow :=
  s.approvalPolicies.find? (fun r => r.id == i && r.deletedAt == none)

/-- CatalogRepository.findOneBy with id. -/
def findCatalog (s : DBState) (i : Int) : Option CatalogRow :=
  s.catalogs.find? (fun r => r.id == i && r.deletedAt == none)

/-- OsTemplateRepository.save on an existing row: replace the row carrying
the same primary key (updatedAt is refreshed by UpdateDateColumn). -/
def saveOsTemplate (s : DBState) (t : OsTemplateRow) : DBState :=
  { s with osTemplates := s.osTemplates.map (fun r => if r.id == t.id then t else r) }

/-- CatalogRepository.save on an existing row. -/
def saveCatalog (s : DBState) (c : CatalogRow) : DBState :=
  { s with catalogs := s.catalogs.map (fun r => if r.id == c.id then c else r) }

/-- Rows of os_template surviving the store-level soft-delete filter; this
is the population of findAndCount. -/
def liveOsTemplates (s : DBState) : List OsTemplateRow :=
  s.osTemplates.filter (fun r => r.deletedAt == none)

/-- A JavaScript number outcome where non-finite values matter. -/
inductive JsNum where
  | fin (z : Int)
  | posInf
  | negInf
  | nan
  deriving Repr, DecidableEq

/-- A JsNum is finite when it carries an integer value. -/
def JsNum.isFinite : JsNum → Bool
  | .fin _ => true
  | _ => false

/-- Math.ceil(count / limit) under IEEE-754 semantics for a natural count
and an integer limit: dividing a positive count by zero gives Infinity,
zero by zero gives NaN, otherwise the exact ceiling of the rational
quotient. -/
def jsCeilDiv (count : Nat) (limit : Int) : JsNum :=
  if limit = 0 then (if count = 0 then .nan else .posInf)
  else if 0 < limit then .fin (((count + limit.toNat - 1) / limit.toNat : Nat) : Int)
  else .fin (-((count / (-limit).toNat : Nat) : Int))

/-- Body of a POST /ostemplate request after the Joi create schema accepted
it (all five attributes are required on create). -/
structure OsTemplateCreateBody where
  name : String
  templateId : String
  osFamily : Int
  location : Int
  availableNetwork : String
  deriving Repr, DecidableEq

/-- The createOsTemplate handler (router.post of osTemplate.ts) after body
validation: look up osFamily, then location, then check that the supplied
availableNetwork is one of the location's availableNetworks, and only then
construct and save the row.  Every error path returns the store unchanged. -/
def createOsTemplate (s : DBState) (user : UserId) (now : Int)
    (b : OsTemplateCreateBody) : Except ApiErr OsTemplateRow × DBState :=
  match findOsFamily s b.osFamily with
  | none => (.error ⟨.E1007, "Provided osFamily doesn\x27t exist"⟩, s)
  | some fam =>
    match findLocation s b.location with
    | none => (.error ⟨.E1007, "Provided location doesn\x27t exist"⟩, s)
    | some loc =>
      if !(loc.availableNetworks.contains b.availableNetwork) then
        (.error ⟨.E1007, "Provided availableNetwork is not part of location"⟩, s)
      else
        let t : OsTemplateRow :=
          { id := s.nextId
            name := b.name
            templateId := b.templateId
            osFamily := fam.id
            location := loc.id
            availableNetwork := b.availableNetwork
            createdBy := user
            updatedBy := user
            deletedBy := none
            createdAt := now
            updatedAt := now
            deletedAt := none }
        (.ok t, { s with osTemplates := s.osTemplates ++ [t], nextId := s.nextId + 1 })

/-- Body of a PUT /ostemplate/:id request after Joi type checking; each
field is optional at the type level, mirroring Partial of IOsTemplate. -/
structure OsTemplatePutBody where
  name : Option String
  templateId : Option String
  osFamily : Option Int
  location : Option Int
  availableNetwork : Option String
  deriving Repr, DecidableEq

/-- The updateOsTemplate handler (router.put of osTemplate.ts).  The PUT
schema marks osFamily and location with required(), so validation fails
whenever either is absent; afterwards the handler fetches the existing row,
overwrites exactly the supplied attributes (looking up each reference), and
checks a supplied availableNetwork against the location object held by the
entity, which at that point is always the freshly looked-up location.  A
location change without a supplied availableNetwork is not re-validated. -/
def updateOsTemplate (s : DBState) (user : UserId) (now : Int) (i : Int)
    (b : OsTemplatePutBody) : Except ApiErr OsTemplateRow × DBState :=
  match b.osFamily, b.location with
  | none, _ => (.error ⟨.E1007, "Please provide a valid number for osFamily"⟩, s)
  | some _, none => (.error ⟨.E1007, "Please provide a valid number for location"⟩, s)
  | some fid, some lid =>
    match findOsTemplate s i with
    | none => (.error ⟨.E1006, errMsg .E1006⟩, s)
    | some t0 =>
      let t1 := match b.name with | some v => { t0 with name := v } | none => t0
      let t2 := match b.templateId with | some v => { t1 with templateId := v } | none => t1
      match findOsFamily s fid with
      | none => (.error ⟨.E1007, "Provided osFamily doesn\x27t exist"⟩, s)
      | some fam =>
        let t3 := { t2 with osFamily := fam.id }
        match findLocation s lid with
        | none => (.error ⟨.E1007, "Provided location doesn\x27t exist"⟩, s)
        | some loc =>
          let t4 := { t3 with location := loc.id }
          match b.availableNetwork with
          | some a =>
            if !(loc.availableNetworks.contains a) then
              (.error ⟨.E1007, "Provided availableNetwork is not part of location"⟩, s)
            else
              let t5 := { t4 with availableNetwork := a, updatedBy := user, updatedAt := now }
              (.ok t5, saveOsTemplate s t5)
          | none =>
            let t5 := { t4 with updatedBy := user, updatedAt := now }
            (.ok t5, saveOsTemplate s t5)

/-- OsTemplateRepository.softDelete(id): set deletedAt on every row whose
primary key matches. -/
def softDeleteOsTemplate (s : DBState) (i : Int) (now : Int) : DBState :=
  { s with osTemplates :=
      s.osTemplates.map (fun r => if r.id == i then { r with deletedAt := some now } else r) }

/-- The affected count reported by softDelete(id). -/
def softDeleteAffected (s : DBState) (i : Int) : Nat :=
  (s.osTemplates.filter (fun r => r.id == i)).length

/-- The deleteOsTemplate handler (router.delete of osTemplate.ts): fetch the
row (NOT_FOUND if no live row), persist deletedBy with save, then soft
delete as a second persistence step, reporting success only when that step
affected at least one row. -/
def deleteOsTemplate (s : DBState) (user : UserId) (now : Int) (i : Int) :
    Except ApiErr Unit × DBState :=
  match findOsTemplate s i with
  | none => (.error ⟨.E1006, errMsg .E1006⟩, s)
  | some t0 =>
    let s1 := saveOsTemplate s { t0 with deletedBy := user, updatedAt := now }
    let affected := softDeleteAffected s1 i
    let s2 := softDeleteOsTemplate s1 i now
    if affected > 0 then (.ok (), s2)
    else (.error ⟨.E1006, errMsg .E1006⟩, s2)

/-- Attribute names the fetchAllOsTemplates fields (and sort) schemas know. -/
def osTemplateFieldNames : List String :=
  ["id", "name", "templateId", "osFamily", "location", "availableNetwork",
   "createdBy", "updatedBy", "createdAt", "updatedAt"]

/-- Per-attribute message of the fields schema. -/
def fieldOptionMsg (k : String) : String :=
  "Please provide a valid field option for " ++ k

/-- Joi message for a key the object schema does not declare. -/
def unknownKeyMsg (k : String) : String :=
  "\x22" ++ k ++ "\x22 is not allowed"

/-- The X-API-Fields map check: every key must be a declared attribute name
and its value the literal true. -/
def validateFieldsMap (known : List String) (fields : List (String × JVal)) :
    Except String Unit :=
  match fields with
  | [] => .ok ()
  | (k, v) :: rest =>
    if known.contains k then
      if v == .jbool true then validateFieldsMap known rest
      else .error (fieldOptionMsg k)
    else .error (unknownKeyMsg k)

/-- The validation step of fetchAllOsTemplates.  The handler declares a
schema with q, fields and sort keys but then calls
schema.validate with an object holding only q and fields, so the sort map
never reaches validation; the sortHeader argument is deliberately unused
here, exactly as in the source. -/
def validateFetchAllOsTemplates (pageQ limitQ relationsQ : Option String)
    (fields _sortHeader : List (String × JVal)) : Except String Unit :=
  if !joiNumberQ pageQ then .error "Please provide a valid page"
  else if !joiNumberQ limitQ then .error "Please provide a valid limit"
  else if !joiBooleanQ relationsQ then .error "Please provide a valid relations"
  else validateFieldsMap osTemplateFieldNames fields

/-- Success payload of fetchAllOsTemplates: the page of rows, the total
live count, and pages computed as Math.ceil(count / limit). -/
structure FetchAllOsTemplatesOk where
  ostemplates : List OsTemplateRow
  count : Nat
  pages : JsNum
  deriving Repr, DecidableEq

/-- The fetchAllOsTemplates handler (router.get of osTemplate.ts): validate
q and fields, default page to 0 and limit to 50 when the parameter is
absent, then fetch with skip page*limit and take limit over the live rows.
Projection, ordering and relation expansion shape the returned objects in
the source but do not change which rows are returned, and are omitted. -/
def fetchAllOsTemplates (s : DBState) (pageQ limitQ relationsQ : Option String)
    (fields sortHeader : List (String × JVal)) :
    Except ApiErr FetchAllOsTemplatesOk :=
  match validateFetchAllOsTemplates pageQ limitQ relationsQ fields sortHeader with
  | .error m => .error ⟨.E1007, m⟩
  | .ok () =>
    let page : Int := match pageQ with | some p => parseIntJs p | none => 0
    let limit : Int := match limitQ with | some l => parseIntJs l | none => 50
    let live := liveOsTemplates s
    let rows := (live.drop (page * limit).toNat).take limit.toNat
    .ok ⟨rows, live.length, jsCeilDiv live.length limit⟩

/-- Invariant I2 as a predicate on a row within a store: the row's
availableNetwork is a member of its referenced location's
availableNetworks. -/
def checkI2 (s : DBState) (t : OsTemplateRow) : Bool :=
  match findLocation s t.location with
  | some loc => loc.availableNetworks.contains t.availableNetwork
  | none => false

/-- Body of a POST /catalog request after the Joi create schema accepted it
(every attribute is required on create; icon only enters via upload). -/
structure CatalogCreateBody where
  name : String
  shortName : String
  defaultTemplate : Int
  defaultApprovalPolicy : Int
  defaultLeasePeriod : Int
  permittedMaxLeaseExtensions : Int
  type : CatalogType
  deriving Repr, DecidableEq

/-- The createCatalog handler (router.post of catalog.ts) after body
validation: look up defaultTemplate, then defaultApprovalPolicy, and only
then construct and save the row. -/
def createCatalog (s : DBState) (user : UserId) (now : Int)
    (b : CatalogCreateBody) : Except ApiErr CatalogRow × DBState :=
  match findOsTemplate s b.defaultTemplate with
  | none => (.error ⟨.E1007, "Provided defaultTemplate doesn\x27t exist"⟩, s)
  | some dt =>
    match findApprovalPolicy s b.defaultApprovalPolicy with
    | none => (.error ⟨.E1007, "Provided defaultApprovalPolicy doesn\x27t exist"⟩, s)
    | some ap =>
      let c : CatalogRow :=
        { id := s.nextId
          name := b.name
          icon := none
          shortName := b.shortName
          defaultTemplate := dt.id
          defaultApprovalPolicy := ap.id
          defaultLeasePeriod := b.defaultLeasePeriod
          permittedMaxLeaseExtensions := b.permittedMaxLeaseExtensions
          type := b.type
          createdBy := user
          updatedBy := user
          deletedBy := none
          createdAt := now
          updatedAt := now
          deletedAt := none }
      (.ok c, { s with catalogs := s.catalogs ++ [c], nextId := s.nextId + 1 })

/-- Body of a PUT /catalog/:id request after Joi type checking; every
attribute is optional, mirroring Partial of ICatalog. -/
structure CatalogPutBody where
  name : Option String
  shortName : Option String
  defaultTemplate : Option Int
  defaultApprovalPolicy : Option Int
  defaultLeasePeriod : Option Int
  permittedMaxLeaseExtensions : Option Int
  type : Option CatalogType
  deriving Repr, DecidableEq

/-- The all-absent PUT body. -/
def emptyCatalogPutBody : CatalogPutBody :=
  ⟨none, none, none, none, none, none, none⟩

/-- The updateCatalog handler (router.put of catalog.ts): fetch the row
(NOT_FOUND when no live row matches), overwrite exactly the supplied
attributes in source order, looking up defaultTemplate and
defaultApprovalPolicy when supplied and failing before any persistence if a
lookup misses, then set updatedBy and save. -/
def updateCatalog (s : DBState) (user : UserId) (now : Int) (i : Int)
    (b : CatalogPutBody) : Except ApiErr CatalogRow × DBState :=
  match findCatalog s i with
  | none => (.error ⟨.E1006, errMsg .E1006⟩, s)
  | some c0 =>
    let c1 := match b.name with | some v => { c0 with name := v } | none => c0
    let c2 := match b.shortName with | some v => { c1 with shortName := v } | none => c1
    let afterDT : Except ApiErr CatalogRow :=
      match b.defaultTemplate with
      | none => .ok c2
      | some did =>
        match findOsTemplate s did with
        | none => .error ⟨.E1007, "Provided defaultTemplate doesn\x27t exist"⟩
        | some dt => .ok { c2 with defaultTemplate := dt.id }
    match afterDT with
    | .error e => (.error e, s)
    | .ok c3 =>
      let afterAP : Except ApiErr CatalogRow :=
        match b.defaultApprovalPolicy with
        | none => .ok c3
        | some aid =>
          match findApprovalPolicy s aid with
          | none => .error ⟨.E1007, "Provided defaultApprovalPolicy doesn\x27t exist"⟩
          | some ap => .ok { c3 with defaultApprovalPolicy := ap.id }
      match afterAP with
      | .error e => (.error e, s)
      | .ok c4 =>
        let c5 := match b.defaultLeasePeriod with
          | some v => { c4 with defaultLeasePeriod := v } | none => c4
        let c6 := match b.permittedMaxLeaseExtensions with
          | some v => { c5 with permittedMaxLeaseExtensions := v } | none => c5
        let c7 := match b.type with | some v => { c6 with type := v } | none => c6
        let c8 := { c7 with updatedBy := user, updatedAt := now }
        (.ok c8, saveCatalog s c8)

/-- Raw (unparsed) PUT /ostemplate/:id body as JSON values, one optional
entry per declared schema key. -/
structure OsTemplatePutRaw where
  name : Option JVal
  templateId : Option JVal
  osFamily : Option JVal
  location : Option JVal
  availableNetwork : Option JVal
  deriving Repr, DecidableEq

/-- Raw PUT /catalog/:id body as JSON values. -/
structure CatalogPutRaw where
  name : Option JVal
  shortName : Option JVal
  defaultTemplate : Option JVal
  defaultApprovalPolicy : Option JVal
  defaultLeasePeriod : Option JVal
  permittedMaxLeaseExtensions : Option JVal
  type : Option JVal
  deriving Repr, DecidableEq

/-- An optional schema key: checked only when present. -/
def checkOpt (p : JVal → Bool) (v : Option JVal) (m : String) : Except String Unit :=
  match v with
  | none => .ok ()
  | some x => if p x then .ok () else .error m

/-- A required schema key: absent values fail with the key's message. -/
def checkReq (p : JVal → Bool) (v : Option JVal) (m : String) : Except String Unit :=
  match v with
  | none => .error m
  | some x => if p x then .ok () else .error m

/-- The Joi body schema of the updateOsTemplate handler: name, templateId
and availableNetwork are optional strings, but osFamily and location carry
required() even though this is the PUT schema. -/
def validateOsTemplatePutBody (b : OsTemplatePutRaw) : Except String Unit := do
  checkOpt joiStringJ b.name "Please provide a valid name"
  checkOpt joiStringJ b.templateId "Please provide a valid templateId"
  checkReq joiNumberJ b.osFamily "Please provide a valid number for osFamily"
  checkReq joiNumberJ b.location "Please provide a valid number for location"
  checkOpt joiStringJ b.availableNetwork "Please provide a valid availableNetwork"

/-- The Joi body schema of the updateCatalog handler: every key is
optional and type-checked only when present. -/
def validateCatalogPutBody (b : CatalogPutRaw) : Except String Unit := do
  checkOpt joiStringJ b.name "Please provide a valid name"
  checkOpt joiStringJ b.shortName "Please provide a valid shortName"
  checkOpt joiNumberJ b.defaultTemplate "Please provide a valid number for defaultTemplate"
  checkOpt joiNumberJ b.defaultApprovalPolicy "Please provide a valid number for defaultApprovalPolicy"
  checkOpt joiNumberJ b.defaultLeasePeriod "Please provide a valid number for defaultLeasePeriod"
  checkOpt joiNumberJ b.permittedMaxLeaseExtensions "Please provide a valid number for permittedMaxLeaseExtensions"
  checkOpt joiCatalogTypeJ b.type "Please provide a valid string for type"

/-- Keys appearing in the error envelopes the two route files send. -/
inductive RespKey where
  | status | code | codes | error
  deriving Repr, DecidableEq

/-- A value in an error envelope: the status or message string, or the
numeric error code (represented by its kind). -/
inductive RespVal where
  | s (v : String)
  | c (v : ErrCode)
  deriving Repr, DecidableEq

/-- One res.status(...).send(...) call on an error path. -/
structure SendSite where
  handler : String
  httpStatus : Nat
  body : List (RespKey × RespVal)
  deriving Repr, DecidableEq

/-- The standard error envelope literal: status error, code, error message. -/
def errBody (c : ErrCode) (m : String) : List (RespKey × RespVal) :=
  [(.status, .s "error"), (.code, .c c), (.error, .s m)]

/-- The envelope of the catch branch of both PUT handlers, which writes the
numeric code under the key codes. -/
def e1004Body : List (RespKey × RespVal) :=
  [(.status, .s "error"), (.codes, .c .E1004), (.error, .s (errMsg .E1004))]

/-- Every error-path send site of osTemplate.ts and catalog.ts, in source
order; vmsg stands for the data-dependent validation.error.message of the
E1007 validation branches. -/
def errorSends (vmsg : String) : List SendSite :=
  [⟨"fetchAllOsTemplates", 200, errBody .E1007 vmsg⟩,
   ⟨"fetchAllOsTemplates", 200, errBody .E1001 (errMsg .E1001)⟩,
   ⟨"fetchOsTemplate", 200, errBody .E1007 vmsg⟩,
   ⟨"fetchOsTemplate", 200, errBody .E1006 (errMsg .E1006)⟩,
   ⟨"fetchOsTemplate", 200, errBody .E1002 (errMsg .E1002)⟩,
   ⟨"createOsTemplate", 200, errBody .E1007 vmsg⟩,
   ⟨"createOsTemplate", 200, errBody .E1007 "Provided osFamily doesn\x27t exist"⟩,
   ⟨"createOsTemplate", 200, errBody .E1007 "Provided location doesn\x27t exist"⟩,
   ⟨"createOsTemplate", 200, errBody .E1007 "Provided availableNetwork is not part of location"⟩,
   ⟨"createOsTemplate", 200, errBody .E1003 (errMsg .E1003)⟩,
   ⟨"updateOsTemplate", 200, errBody .E1007 vmsg⟩,
   ⟨"updateOsTemplate", 200, errBody .E1006 (errMsg .E1006)⟩,
   ⟨"updateOsTemplate", 200, errBody .E1007 "Provided osFamily doesn\x27t exist"⟩,
   ⟨"updateOsTemplate", 200, errBody .E1007 "Provided location doesn\x27t exist"⟩,
   ⟨"updateOsTemplate", 200, errBody .E1007 "Provided availableNetwork is not part of location"⟩,
   ⟨"updateOsTemplate", 200, e1004Body⟩,
   ⟨"deleteOsTemplate", 200, errBody .E1007 vmsg⟩,
   ⟨"deleteOsTemplate", 200, errBody .E1006 (errMsg .E1006)⟩,
   ⟨"deleteOsTemplate", 200, errBody .E1006 (errMsg .E1006)⟩,
   ⟨"deleteOsTemplate", 200, errBody .E1005 (errMsg .E1005)⟩,
   ⟨"fetchAllCatalogs", 200, errBody .E1007 vmsg⟩,
   ⟨"fetchAllCatalogs", 200, errBody .E1001 (errMsg .E1001)⟩,
   ⟨"fetchCatalog", 200, errBody .E1007 vmsg⟩,
   ⟨"fetchCatalog", 200, errBody .E1006 (errMsg .E1006)⟩,
   ⟨"fetchCatalog", 200, errBody .E1002 (errMsg .E1002)⟩,
   ⟨"createCatalog", 200, errBody .E1007 vmsg⟩,
   ⟨"createCatalog", 200, errBody .E1007 "Provided defaultTemplate doesn\x27t exist"⟩,
   ⟨"createCatalog", 200, errBody .E1007 "Provided defaultApprovalPolicy doesn\x27t exist"⟩,
   ⟨"createCatalog", 200, errBody .E1003 (errMsg .E1003)⟩,
   ⟨"uploadCatalogFiles", 200, errBody .E1007 vmsg⟩,
   ⟨"uploadCatalogFiles", 200, errBody .E1006 (errMsg .E1006)⟩,
   ⟨"uploadCatalogFiles", 200, errBody .E1008 (errMsg .E1008)⟩,
   ⟨"updateCatalog", 200, errBody .E1007 vmsg⟩,
   ⟨"updateCatalog", 200, errBody .E1006 (errMsg .E1006)⟩,
   ⟨"updateCatalog", 200, errBody .E1007 "Provided defaultTemplate doesn\x27t exist"⟩,
   ⟨"updateCatalog", 200, errBody .E1007 "Provided defaultApprovalPolicy doesn\x27t exist"⟩,
   ⟨"updateCatalog", 200, e1004Body⟩,
   ⟨"deleteCatalog", 200, errBody .E1007 vmsg⟩,
   ⟨"deleteCatalog", 200, errBody .E1006 (errMsg .E1006)⟩,
   ⟨"deleteCatalog", 200, errBody .E1006 (errMsg .E1006)⟩,
   ⟨"deleteCatalog", 200, errBody .E1005 (errMsg .E1005)⟩]

/-- Concrete store used to instantiate the theorems: one live os family,
two live locations with disjoint network lists, one live template on the
first location, one approval policy and one catalog. -/
def famFix : OsFamilyRow := ⟨1, "Linux", "LN", none⟩

/-- First location fixture, owning the network the template fixture uses. -/
def locFix : LocationRow := ⟨2, "DC0", ["/n1"], none⟩

/-- Second location fixture with a different network list. -/
def locFix2 : LocationRow := ⟨3, "DC1", ["/n2"], none⟩

/-- Template fixture referencing famFix and locFix, satisfying I2. -/
def tplFix : OsTemplateRow :=
  ⟨4, "Ubuntu", "/DC0/vm/template", 1, 2, "/n1", none, none, none, 0, 0, none⟩

/-- Approval policy fixture. -/
def apFix : ApprovalPolicyRow := ⟨6, "AP", none⟩

/-- Catalog fixture referencing tplFix and apFix. -/
def catFix : CatalogRow :=
  ⟨7, "Cat", none, "CT", 4, 6, 5, 10, .Standard, none, none, none, 0, 0, none⟩

/-- The fixture store. -/
def dbFix : DBState := ⟨[famFix], [locFix, locFix2], [tplFix], [apFix], [catFix], 8⟩

/-- C2: for an OsTemplate create whose osFamily and location both resolve,
a supplied availableNetwork outside the location's availableNetworks fails
with E1007 and the exact message, leaving the store unchanged, while a
member availableNetwork makes the create succeed and append exactly the new
row. -/
theorem createOsTemplate_network_membership (s : DBState) (u : UserId) (now : Int)
    (b : OsTemplateCreateBody) (fam : OsFamilyRow) (loc : LocationRow)
    (hf : findOsFamily s b.osFamily = some fam)
    (hl : findLocation s b.location = some loc) :
    (loc.availableNetworks.contains b.availableNetwork = false →
      createOsTemplate s u now b =
        (.error ⟨.E1007, "Provided availableNetwork is not part of location"⟩, s)) ∧
    (loc.availableNetworks.contains b.availableNetwork = true →
      ∃ t, createOsTemplate s u now b =
        (.ok t, { s with osTemplates := s.osTemplates ++ [t], nextId := s.nextId + 1 }) ∧
        t.availableNetwork = b.availableNetwork) := by
  constructor
  · intro h
    have h' : b.availableNetwork ∉ loc.availableNetworks := by simpa using h
    simp [createOsTemplate, hf, hl, h']
  · intro h
    have h' : b.availableNetwork ∈ loc.availableNetworks := by simpa using h
    exact ⟨{ id := s.nextId, name := b.name, templateId := b.templateId,
             osFamily := fam.id, location := loc.id,
             availableNetwork := b.availableNetwork, createdBy := u, updatedBy := u,
             deletedBy := none, createdAt := now, updatedAt := now, deletedAt := none },
           by simp [createOsTemplate, hf, hl, h'], rfl⟩

/-- Witness for createOsTemplate_network_membership at the fixture store. -/
theorem createOsTemplate_network_membership_w :
    (findOsFamily dbFix 1 = some famFix ∧ findLocation dbFix 2 = some locFix ∧
      locFix.availableNetworks.contains "/nope" = false) ∧
    createOsTemplate dbFix none 7 ⟨"W", "/t2", 1, 2, "/nope"⟩ =
      (.error ⟨.E1007, "Provided availableNetwork is not part of location"⟩, dbFix) :=
  ⟨⟨by decide, by decide, by decide⟩,
    (createOsTemplate_network_membership dbFix none 7 ⟨"W", "/t2", 1, 2, "/nope"⟩
      famFix locFix (by decide) (by decide)).1 (by decide)⟩

/-- C3: every create or update carrying a foreign-key value whose
referenced row does not exist fails with E1007 and a message naming the
field, before any write: the returned store is exactly the input store in
all eight reference-miss situations across the OsTemplate and Catalog
create and update handlers. -/
theorem referential_checks_atomic (s : DBState) (u : UserId) (now i : Int) :
    (∀ b : OsTemplateCreateBody, findOsFamily s b.osFamily = none →
      createOsTemplate s u now b =
        (.error ⟨.E1007, "Provided osFamily doesn\x27t exist"⟩, s)) ∧
    (∀ (b : OsTemplateCreateBody) (fam : OsFamilyRow),
      findOsFamily s b.osFamily = some fam → findLocation s b.location = none →
      createOsTemplate s u now b =
        (.error ⟨.E1007, "Provided location doesn\x27t exist"⟩, s)) ∧
    (∀ (b : OsTemplatePutBody) (fid lid : Int) (t0 : OsTemplateRow),
      b.osFamily = some fid → b.location = some lid →
      findOsTemplate s i = some t0 → findOsFamily s fid = none →
      updateOsTemplate s u now i b =
        (.error ⟨.E1007, "Provided osFamily doesn\x27t exist"⟩, s)) ∧
    (∀ (b : OsTemplatePutBody) (fid lid : Int) (t0 : OsTemplateRow) (fam : OsFamilyRow),
      b.osFamily = some fid → b.location = some lid →
      findOsTemplate s i = some t0 → findOsFamily s fid = some fam →
      findLocation s lid = none →
      updateOsTemplate s u now i b =
        (.error ⟨.E1007, "Provided location doesn\x27t exist"⟩, s)) ∧
    (∀ b : CatalogCreateBody, findOsTemplate s b.defaultTemplate = none →
      createCatalog s u now b =
        (.error ⟨.E1007, "Provided defaultTemplate doesn\x27t exist"⟩, s)) ∧
    (∀ (b : CatalogCreateBody) (dt : OsTemplateRow),
      findOsTemplate s b.defaultTemplate = some dt →
      findApprovalPolicy s b.defaultApprovalPolicy = none →
      createCatalog s u now b =
        (.error ⟨.E1007, "Provided defaultApprovalPolicy doesn\x27t exist"⟩, s)) ∧
    (∀ (b : CatalogPutBody) (c0 : CatalogRow) (did : Int),
      findCatalog s i = some c0 → b.defaultTemplate = some did →
      findOsTemplate s did = none →
      updateCatalog s u now i b =
        (.error ⟨.E1007, "Provided defaultTemplate doesn\x27t exist"⟩, s)) ∧
    (∀ (b : CatalogPutBody) (c0 : CatalogRow) (aid : Int),
      findCatalog s i = some c0 →
      (∀ did, b.defaultTemplate = some did → ∃ dt, findOsTemplate s did = some dt) →
      b.defaultApprovalPolicy = some aid → findApprovalPolicy s aid = none →
      updateCatalog s u now i b =
        (.error ⟨.E1007, "Provided defaultApprovalPolicy doesn\x27t exist"⟩, s)) := by
  refine ⟨fun b hf => ?_, fun b fam hf hl => ?_, fun b fid lid t0 hbf hbl ht hf => ?_,
    fun b fid lid t0 fam hbf hbl ht hf hl => ?_, fun b hdt => ?_, fun b dt hdt hap => ?_,
    fun b c0 did hc hbdt hdt => ?_, fun b c0 aid hc hdt hbap hap => ?_⟩
  · simp [createOsTemplate, hf]
  · simp [createOsTemplate, hf, hl]
  · simp [updateOsTemplate, hbf, hbl, ht, hf]
  · simp [updateOsTemplate, hbf, hbl, ht, hf, hl]
  · simp [createCatalog, hdt]
  · simp [createCatalog, hdt, hap]
  · simp [updateCatalog, hc, hbdt, hdt]
  · rcases hbdt : b.defaultTemplate with _ | did
    · simp [updateCatalog, hc, hbdt, hbap, hap]
    · obtain ⟨dt, hdt'⟩ := hdt did hbdt
      simp [updateCatalog, hc, hbdt, hdt', hbap, hap]

/-- Witness for referential_checks_atomic: each of the eight reference-miss
situations exercised at the fixture store with the nonexistent id 99. -/
theorem referential_checks_atomic_w :
    (createOsTemplate dbFix none 7 ⟨"W", "/t2", 99, 2, "/n1"⟩ =
      (.error ⟨.E1007, "Provided osFamily doesn\x27t exist"⟩, dbFix)) ∧
    (createOsTemplate dbFix none 7 ⟨"W", "/t2", 1, 99, "/n1"⟩ =
      (.error ⟨.E1007, "Provided location doesn\x27t exist"⟩, dbFix)) ∧
    (updateOsTemplate dbFix none 7 4 ⟨none, none, some 99, some 2, none⟩ =
      (.error ⟨.E1007, "Provided osFamily doesn\x27t exist"⟩, dbFix)) ∧
    (updateOsTemplate dbFix none 7 4 ⟨none, none, some 1, some 99, none⟩ =
      (.error ⟨.E1007, "Provided location doesn\x27t exist"⟩, dbFix)) ∧
    (createCatalog dbFix none 7 ⟨"C", "CC", 99, 6, 5, 10, .Standard⟩ =
      (.error ⟨.E1007, "Provided defaultTemplate doesn\x27t exist"⟩, dbFix)) ∧
    (createCatalog dbFix none 7 ⟨"C", "CC", 4, 99, 5, 10, .Standard⟩ =
      (.error ⟨.E1007, "Provided defaultApprovalPolicy doesn\x27t exist"⟩, dbFix)) ∧
    (updateCatalog dbFix none 7 7 ⟨none, none, some 99, none, none, none, none⟩ =
      (.error ⟨.E1007, "Provided defaultTemplate doesn\x27t exist"⟩, dbFix)) ∧
    (updateCatalog dbFix none 7 7 ⟨none, none, some 4, some 99, none, none, none⟩ =
      (.error ⟨.E1007, "Provided defaultApprovalPolicy doesn\x27t exist"⟩, dbFix)) :=
  ⟨(referential_checks_atomic dbFix none 7 4).1 _ (by decide),
   (referential_checks_atomic dbFix none 7 4).2.1 _ famFix (by decide) (by decide),
   (referential_checks_atomic dbFix none 7 4).2.2.1 _ 99 2 tplFix rfl rfl
     (by decide) (by decide),
   (referential_checks_atomic dbFix none 7 4).2.2.2.1 _ 1 99 tplFix famFix rfl rfl
     (by decide) (by decide) (by decide),
   (referential_checks_atomic dbFix none 7 4).2.2.2.2.1 _ (by decide),
   (referential_checks_atomic dbFix none 7 4).2.2.2.2.2.1 _ tplFix (by decide) (by decide),
   (referential_checks_atomic dbFix none 7 7).2.2.2.2.2.2.1 _ catFix 99 (by decide) rfl
     (by decide),
   (referential_checks_atomic dbFix none 7 7).2.2.2.2.2.2.2 _ catFix 99 (by decide)
     (fun did hdid => ⟨tplFix, by
        have : did = 4 := by injection hdid with h; exact h.symm
        subst this; decide⟩) rfl (by decide)⟩

deriving instance DecidableEq for Except

/-- A found location row carries the id it was looked up by, so looking it
up again by its own id finds it. -/
lemma findLocation_self {s : DBState} {x : Int} {loc : LocationRow}
    (h : findLocation s x = some loc) : loc.id = x ∧ findLocation s loc.id = some loc := by
  have h' : s.locations.find? (fun r => r.id == x && r.deletedAt == none) = some loc := h
  have hp := List.find?_some h'
  simp only [Bool.and_eq_true, beq_iff_eq] at hp
  refine ⟨hp.1, ?_⟩
  rw [hp.1]
  exact h

/-- Save only rewrites the osTemplates table, so location lookups are
unchanged. -/
lemma findLocation_saveOsTemplate (s : DBState) (t : OsTemplateRow) (x : Int) :
    findLocation (saveOsTemplate s t) x = findLocation s x := rfl

/-- Inversion of a successful updateOsTemplate: the required body fields
were present, every lookup succeeded, the saved row points at the looked-up
location, and its availableNetwork is the supplied one (checked against
that location) or the previous row's one when not supplied. -/
lemma updateOsTemplate_ok_inv {s s' : DBState} {u : UserId} {now i : Int}
    {b : OsTemplatePutBody} {t' : OsTemplateRow}
    (h : updateOsTemplate s u now i b = (.ok t', s')) :
    ∃ fid lid t0 fam loc,
      b.osFamily = some fid ∧ b.location = some lid ∧
      findOsTemplate s i = some t0 ∧ findOsFamily s fid = some fam ∧
      findLocation s lid = some loc ∧
      t'.location = loc.id ∧ s' = saveOsTemplate s t' ∧
      (∀ a, b.availableNetwork = some a →
        a ∈ loc.availableNetworks ∧ t'.availableNetwork = a) ∧
      (b.availableNetwork = none → t'.availableNetwork = t0.availableNetwork) := by
  obtain ⟨bn, bt, bf, bl, ba⟩ := b
  cases bn <;> cases bt <;>
  · cases bf with
    | none => simp [updateOsTemplate] at h
    | some fid =>
      cases bl with
      | none => simp [updateOsTemplate] at h
      | some lid =>
        unfold updateOsTemplate at h
        dsimp only at h
        cases ht : findOsTemplate s i with
        | none => rw [ht] at h; simp at h
        | some t0 =>
          rw [ht] at h
          cases hf : findOsFamily s fid with
          | none => rw [hf] at h; simp at h
          | some fam =>
            rw [hf] at h
            cases hl : findLocation s lid with
            | none => rw [hl] at h; simp at h
            | some loc =>
              rw [hl] at h
              cases ba with
              | some a =>
                by_cases hmem : a ∈ loc.availableNetworks
                · simp only [hmem, List.contains_iff_exists_mem_beq] at h
                  simp [hmem] at h
                  obtain ⟨ht', hs'⟩ := h
                  subst ht'
                  refine ⟨fid, lid, t0, fam, loc, rfl, rfl, rfl, hf, hl, rfl, hs'.symm,
                    ?_, ?_⟩
                  · intro a' ha'
                    injection ha' with ha2
                    subst ha2
                    exact ⟨hmem, rfl⟩
                  · intro hn; exact absurd hn (by simp)
                · simp [hmem] at h
              | none =>
                simp at h
                obtain ⟨ht', hs'⟩ := h
                subst ht'
                exact ⟨fid, lid, t0, fam, loc, rfl, rfl, rfl, hf, hl, rfl, hs'.symm,
                  fun a' ha' => absurd ha' (by simp), fun _ => rfl⟩

/-- Location lookups only read the locations table. -/
lemma findLocation_eq_of_locations {s s' : DBState} (h : s'.locations = s.locations)
    (x : Int) : findLocation s' x = findLocation s x := by
  unfold findLocation
  rw [h]

/-- Inversion of a successful createOsTemplate: both lookups succeeded, the
membership check passed, and the created row records the supplied
availableNetwork and the looked-up location. -/
lemma createOsTemplate_ok_inv {s s' : DBState} {u : UserId} {now : Int}
    {b : OsTemplateCreateBody} {t' : OsTemplateRow}
    (h : createOsTemplate s u now b = (.ok t', s')) :
    ∃ fam loc, findOsFamily s b.osFamily = some fam ∧
      findLocation s b.location = some loc ∧
      b.availableNetwork ∈ loc.availableNetworks ∧
      t'.location = loc.id ∧ t'.availableNetwork = b.availableNetwork ∧
      s' = { s with osTemplates := s.osTemplates ++ [t'], nextId := s.nextId + 1 } := by
  unfold createOsTemplate at h
  cases hf : findOsFamily s b.osFamily with
  | none => rw [hf] at h; simp at h
  | some fam =>
    rw [hf] at h
    cases hl : findLocation s b.location with
    | none => rw [hl] at h; simp at h
    | some loc =>
      rw [hl] at h
      by_cases hmem : b.availableNetwork ∈ loc.availableNetworks
      · simp [hmem] at h
        obtain ⟨ht', hs'⟩ := h
        subst ht'
        exact ⟨fam, loc, rfl, rfl, hmem, rfl, rfl, hs'.symm⟩
      · simp [hmem] at h

/-- C1 (amended): a row produced by a successful create satisfies I2; a row
produced by a successful update satisfies I2 whenever the update supplied
availableNetwork, and also whenever it did not supply availableNetwork but
supplied the row's previous location id and the previous row satisfied I2.
An update that changes the location without supplying availableNetwork is
not covered, and can violate I2 (see the counterexample). -/
theorem osTemplate_I2_after_successful_writes (s s' : DBState) (u : UserId)
    (now i : Int) (t' : OsTemplateRow) :
    (∀ b : OsTemplateCreateBody,
      createOsTemplate s u now b = (.ok t', s') → checkI2 s' t' = true) ∧
    (∀ b : OsTemplatePutBody, b.availableNetwork.isSome = true →
      updateOsTemplate s u now i b = (.ok t', s') → checkI2 s' t' = true) ∧
    (∀ (b : OsTemplatePutBody) (t0 : OsTemplateRow), b.availableNetwork = none →
      findOsTemplate s i = some t0 → b.location = some t0.location →
      checkI2 s t0 = true →
      updateOsTemplate s u now i b = (.ok t', s') → checkI2 s' t' = true) := by
  refine ⟨fun b h => ?_, fun b hba h => ?_, fun b t0 hban ht0 hbl0 hI2 h => ?_⟩
  · obtain ⟨fam, loc, hf, hl, hmem, htl, han, hs'⟩ := createOsTemplate_ok_inv h
    obtain ⟨hlid, hl2⟩ := findLocation_self hl
    have hleq : s'.locations = s.locations := by rw [hs']
    have hscr : findLocation s' t'.location = some loc := by
      rw [findLocation_eq_of_locations hleq, htl]
      exact hl2
    unfold checkI2
    rw [hscr, han]
    simpa using hmem
  · obtain ⟨fid, lid, t0, fam, loc, hbf, hbl, ht, hf, hl, htl, hs', hsome, hnone⟩ :=
      updateOsTemplate_ok_inv h
    cases hban : b.availableNetwork with
    | none => rw [hban] at hba; simp at hba
    | some a =>
      obtain ⟨hmem, han⟩ := hsome a hban
      obtain ⟨hlid, hl2⟩ := findLocation_self hl
      have hleq : s'.locations = s.locations := by rw [hs']; rfl
      have hscr : findLocation s' t'.location = some loc := by
        rw [findLocation_eq_of_locations hleq, htl]
        exact hl2
      unfold checkI2
      rw [hscr, han]
      simpa using hmem
  · obtain ⟨fid, lid, t0', fam, loc, hbf, hbl, ht, hf, hl, htl, hs', _, hnone⟩ :=
      updateOsTemplate_ok_inv h
    rw [ht0] at ht
    injection ht with ht2
    subst ht2
    rw [hbl0] at hbl
    injection hbl with hbl2
    obtain ⟨hlid, hl2⟩ := findLocation_self hl
    have hloc0 : findLocation s t0.location = some loc := by rw [hbl2]; exact hl
    have hI2' : loc.availableNetworks.contains t0.availableNetwork = true := by
      unfold checkI2 at hI2
      rw [hloc0] at hI2
      exact hI2
    have hleq : s'.locations = s.locations := by rw [hs']; rfl
    have hscr : findLocation s' t'.location = some loc := by
      rw [findLocation_eq_of_locations hleq, htl]
      exact hl2
    unfold checkI2
    rw [hscr, hnone hban]
    exact hI2'

/-- The row produced by updating tplFix with a new location and no
availableNetwork: the stale network value survives on the new location. -/
def tplFixMoved : OsTemplateRow :=
  ⟨4, "Ubuntu", "/DC0/vm/template", 1, 3, "/n1", none, none, none, 0, 7, none⟩

/-- C1 counterexample: at the fixture store, the update supplying location 3
(whose availableNetworks is the singleton /n2) but no availableNetwork
succeeds, and the persisted row violates I2, even though the row satisfied
I2 before the update. -/
theorem osTemplate_I2_update_location_violation :
    updateOsTemplate dbFix none 7 4 ⟨none, none, some 1, some 3, none⟩ =
      (.ok tplFixMoved, saveOsTemplate dbFix tplFixMoved) ∧
    tplFixMoved ∈ (saveOsTemplate dbFix tplFixMoved).osTemplates ∧
    checkI2 (saveOsTemplate dbFix tplFixMoved) tplFixMoved = false ∧
    checkI2 dbFix tplFix = true := by decide

/-- Row created by the witness create. -/
def wRowCreate : OsTemplateRow := ⟨8, "W", "/t2", 1, 2, "/n1", none, none, none, 7, 7, none⟩

/-- Store after the witness create. -/
def wStCreate : DBState :=
  { dbFix with osTemplates := dbFix.osTemplates ++ [wRowCreate], nextId := 9 }

/-- Row produced by the witness update that supplies availableNetwork. -/
def wRowUpd : OsTemplateRow :=
  ⟨4, "Ubuntu", "/DC0/vm/template", 1, 3, "/n2", none, none, none, 0, 7, none⟩

/-- Row produced by the witness update that keeps location and omits
availableNetwork. -/
def wRowUpd2 : OsTemplateRow :=
  ⟨4, "Ubuntu", "/DC0/vm/template", 1, 2, "/n1", none, none, none, 0, 7, none⟩

/-- Witness for osTemplate_I2_after_successful_writes: all three covered
write shapes exercised at the fixture store. -/
theorem osTemplate_I2_after_successful_writes_w :
    (createOsTemplate dbFix none 7 ⟨"W", "/t2", 1, 2, "/n1"⟩ = (.ok wRowCreate, wStCreate) ∧
      checkI2 wStCreate wRowCreate = true) ∧
    (updateOsTemplate dbFix none 7 4 ⟨none, none, some 1, some 3, some "/n2"⟩ =
        (.ok wRowUpd, saveOsTemplate dbFix wRowUpd) ∧
      checkI2 (saveOsTemplate dbFix wRowUpd) wRowUpd = true) ∧
    (updateOsTemplate dbFix none 7 4 ⟨none, none, some 1, some 2, none⟩ =
        (.ok wRowUpd2, saveOsTemplate dbFix wRowUpd2) ∧
      checkI2 (saveOsTemplate dbFix wRowUpd2) wRowUpd2 = true) :=
  ⟨⟨by decide,
    (osTemplate_I2_after_successful_writes dbFix wStCreate none 7 0 wRowCreate).1
      ⟨"W", "/t2", 1, 2, "/n1"⟩ (by decide)⟩,
   ⟨by decide,
    (osTemplate_I2_after_successful_writes dbFix (saveOsTemplate dbFix wRowUpd)
        none 7 4 wRowUpd).2.1
      ⟨none, none, some 1, some 3, some "/n2"⟩ (by decide) (by decide)⟩,
   ⟨by decide,
    (osTemplate_I2_after_successful_writes dbFix (saveOsTemplate dbFix wRowUpd2)
        none 7 4 wRowUpd2).2.2
      ⟨none, none, some 1, some 2, none⟩ tplFix (by decide) (by decide) (by decide)
      (by decide) (by decide)⟩⟩

/-- C4 evidence: the updateOsTemplate PUT schema rejects the partial body
of its own apidoc example (name, templateId and availableNetwork only)
because osFamily and location carry required(), while the updateCatalog PUT
schema accepts arbitrary partial bodies, down to the empty one. -/
theorem osTemplatePut_required_refs_eval :
    validateOsTemplatePutBody
        ⟨some (.jstr "Ubuntu 20.08"), some (.jstr "/DC0/vm/template"), none, none,
          some (.jstr "/DC0/vm/network")⟩ =
      .error "Please provide a valid number for osFamily" ∧
    validateCatalogPutBody
        ⟨some (.jstr "Catalog Name"), none, none, none, none, none, none⟩ = .ok () ∧
    validateCatalogPutBody ⟨none, none, none, none, none, none, none⟩ = .ok () := by decide

/-- C5 evidence: the list validation of fetchAllOsTemplates is entirely
independent of the X-API-Sort map, because the handler validates only the
object of q and fields, and in particular a sort map with an unknown
attribute and a value that is neither asc nor desc passes validation and
the request succeeds. -/
theorem fetchAll_sort_not_validated :
    (∀ (pq lq rq : Option String) (fields s1 s2 : List (String × JVal)),
      validateFetchAllOsTemplates pq lq rq fields s1 =
        validateFetchAllOsTemplates pq lq rq fields s2) ∧
    validateFetchAllOsTemplates none none none [] [("bogus", .jstr "upward")] = .ok () ∧
    fetchAllOsTemplates dbFix none none none [] [("bogus", .jstr "upward")] =
      .ok ⟨liveOsTemplates dbFix, 1, .fin 1⟩ :=
  ⟨fun _ _ _ _ _ _ => rfl, by decide, by decide⟩

/-- C6 counterexample: the update-failure catch branch of the osTemplate
PUT handler is listed among the error sends, yet its envelope has no code
key at all; the numeric code sits under the misspelled key codes. -/
theorem updatePut_uses_codes_key :
    (⟨"updateOsTemplate", 200, e1004Body⟩ : SendSite) ∈ errorSends (errMsg .E1007) ∧
    List.lookup RespKey.code e1004Body = none ∧
    List.lookup RespKey.codes e1004Body = some (.c .E1004) ∧
    List.lookup RespKey.status e1004Body = some (.s "error") := by decide

/-- C6 (amended): every error send of the two route files goes out with
HTTP status 200, status error and a message under the error key; the
numeric code is under the key code in every branch except the
update-failure (E1004) catch branch of the two PUT handlers, which writes
it under the key codes instead. -/
theorem error_envelope_shape (vmsg : String) (site : SendSite)
    (h : site ∈ errorSends vmsg) :
    site.httpStatus = 200 ∧
    site.body.lookup RespKey.status = some (.s "error") ∧
    (site.body.lookup RespKey.error).isSome = true ∧
    (((site.body.lookup RespKey.code).isSome = true ∧
        site.body.lookup RespKey.codes = none) ∨
      (site.body.lookup RespKey.codes = some (.c .E1004) ∧
        site.body.lookup RespKey.code = none ∧
        (site.handler = "updateOsTemplate" ∨ site.handler = "updateCatalog"))) := by
  fin_cases h <;>
    first
      | exact ⟨rfl, rfl, rfl, Or.inl ⟨rfl, rfl⟩⟩
      | exact ⟨rfl, rfl, rfl, Or.inr ⟨rfl, rfl, Or.inl rfl⟩⟩
      | exact ⟨rfl, rfl, rfl, Or.inr ⟨rfl, rfl, Or.inr rfl⟩⟩

/-- Sample site for the envelope witness. -/
def wSite : SendSite := ⟨"fetchAllOsTemplates", 200, errBody .E1007 "m"⟩

/-- Witness for error_envelope_shape at a concrete validation send site. -/
theorem error_envelope_shape_w :
    wSite ∈ errorSends "m" ∧
    (wSite.httpStatus = 200 ∧
      wSite.body.lookup RespKey.status = some (.s "error") ∧
      (wSite.body.lookup RespKey.error).isSome = true ∧
      (((wSite.body.lookup RespKey.code).isSome = true ∧
          wSite.body.lookup RespKey.codes = none) ∨
        (wSite.body.lookup RespKey.codes = some (.c .E1004) ∧
          wSite.body.lookup RespKey.code = none ∧
          (wSite.handler = "updateOsTemplate" ∨ wSite.handler = "updateCatalog")))) :=
  ⟨by decide, error_envelope_shape "m" wSite (by decide)⟩

/-- C7: for a list request whose page parses to p and whose limit parses to
a positive L, the handler accepts the request, reports the live row count,
returns at most L rows, returns exactly the rows at offsets p*L, p*L+1, ...
of the live table, reports pages P characterized as the ceiling of count/L
(count ≤ P*L < count + L), and returns zero rows with the unchanged count
for any page at or beyond the end. -/
theorem fetchAll_pagination_bounds (s : DBState) (ps ls : String) (p L : Nat)
    (hpn : numericStr ps = true) (hln : numericStr ls = true)
    (hp : parseIntJs ps = (p : Int)) (hl : parseIntJs ls = (L : Int)) (hL : 0 < L) :
    ∃ r, fetchAllOsTemplates s (some ps) (some ls) none [] [] = .ok r ∧
      r.count = (liveOsTemplates s).length ∧
      r.ostemplates.length ≤ L ∧
      (∀ j : Nat, j < r.ostemplates.length →
        r.ostemplates[j]? = (liveOsTemplates s)[p * L + j]?) ∧
      (∃ P : Nat, r.pages = .fin (P : Int) ∧ r.count ≤ P * L ∧ P * L < r.count + L) ∧
      ((liveOsTemplates s).length ≤ p * L → r.ostemplates = []) := by
  have hval : validateFetchAllOsTemplates (some ps) (some ls) none [] [] = .ok () := by
    simp [validateFetchAllOsTemplates, joiNumberQ, joiBooleanQ, validateFieldsMap,
      hpn, hln]
  have hmul : ((p : Int) * (L : Int)).toNat = p * L := by
    rw [← Nat.cast_mul, Int.toNat_ofNat]
  have hLt : ((L : Int)).toNat = L := Int.toNat_ofNat L
  refine ⟨⟨((liveOsTemplates s).drop (p * L)).take L, (liveOsTemplates s).length,
      jsCeilDiv (liveOsTemplates s).length (L : Int)⟩, ?_, rfl, ?_, ?_, ?_, ?_⟩
  · unfold fetchAllOsTemplates
    rw [hval]
    dsimp only
    rw [hp, hl, hmul, hLt]
  · simp only [List.length_take]
    exact min_le_left _ _
  · intro j hj
    simp only [List.length_take, lt_min_iff] at hj
    rw [List.getElem?_take_of_lt hj.1, List.getElem?_drop]
  · refine ⟨((liveOsTemplates s).length + L - 1) / L, ?_, ?_, ?_⟩
    · unfold jsCeilDiv
      rw [if_neg (by exact_mod_cast Nat.pos_iff_ne_zero.mp hL),
        if_pos (by exact_mod_cast hL), hLt]
    · dsimp only
      have h1 := Nat.div_add_mod ((liveOsTemplates s).length + L - 1) L
      have h2 := Nat.mod_lt ((liveOsTemplates s).length + L - 1) hL
      rw [Nat.mul_comm] at h1
      generalize (((liveOsTemplates s).length + L - 1) / L) * L = q at h1 ⊢
      omega
    · dsimp only
      have h1 := Nat.div_mul_le_self ((liveOsTemplates s).length + L - 1) L
      generalize (((liveOsTemplates s).length + L - 1) / L) * L = q at h1 ⊢
      omega
  · intro hbeyond
    rw [List.drop_eq_nil_of_le hbeyond, List.take_nil]

/-- Witness for fetchAll_pagination_bounds: page 2, limit 3 over the
one-row fixture table. -/
theorem fetchAll_pagination_bounds_w :
    (numericStr "2" = true ∧ numericStr "3" = true ∧ parseIntJs "2" = (2 : Int) ∧
      parseIntJs "3" = (3 : Int) ∧ 0 < 3) ∧
    ∃ r, fetchAllOsTemplates dbFix (some "2") (some "3") none [] [] = .ok r ∧
      r.count = (liveOsTemplates dbFix).length ∧
      r.ostemplates.length ≤ 3 ∧
      (∀ j : Nat, j < r.ostemplates.length →
        r.ostemplates[j]? = (liveOsTemplates dbFix)[2 * 3 + j]?) ∧
      (∃ P : Nat, r.pages = .fin (P : Int) ∧ r.count ≤ P * 3 ∧ P * 3 < r.count + 3) ∧
      ((liveOsTemplates dbFix).length ≤ 2 * 3 → r.ostemplates = []) :=
  ⟨⟨by decide, by decide, by decide, by decide, by decide⟩,
    fetchAll_pagination_bounds dbFix "2" "3" 2 3 (by decide) (by decide) (by decide)
      (by decide) (by decide)⟩

/-- Membership in the saved osTemplates table: each row is either the saved
row (replacing a row with its id) or an untouched row with a different id. -/
lemma mem_saveOsTemplate {s : DBState} {t r : OsTemplateRow}
    (h : r ∈ (saveOsTemplate s t).osTemplates) :
    (r = t ∧ ∃ r0 ∈ s.osTemplates, r0.id = t.id) ∨
    (r ∈ s.osTemplates ∧ r.id ≠ t.id) := by
  unfold saveOsTemplate at h
  simp only [List.mem_map] at h
  obtain ⟨r0, hr0, rfl⟩ := h
  by_cases he : r0.id = t.id
  · exact Or.inl ⟨by simp [he], r0, hr0, he⟩
  · refine Or.inr ⟨?_, ?_⟩ <;> simp [he, hr0]

/-- Membership in the soft-deleted osTemplates table: each row is either a
freshly marked row whose id matched, or an untouched row with another id. -/
lemma mem_softDeleteOsTemplate {s : DBState} {i now : Int} {r : OsTemplateRow}
    (h : r ∈ (softDeleteOsTemplate s i now).osTemplates) :
    (∃ r1 ∈ s.osTemplates, r1.id = i ∧ r = { r1 with deletedAt := some now }) ∨
    (r ∈ s.osTemplates ∧ r.id ≠ i) := by
  unfold softDeleteOsTemplate at h
  simp only [List.mem_map] at h
  obtain ⟨r1, hr1, rfl⟩ := h
  by_cases he : r1.id = i
  · exact Or.inl ⟨r1, hr1, he, by simp [he]⟩
  · refine Or.inr ⟨?_, ?_⟩ <;> simp [he, hr1]

/-- C8: deleting a missing (or already soft-deleted) id reports NOT_FOUND
and leaves the store alone; deleting a live id reports success, with the
final store being the soft-delete step applied after the separate
deletedBy-save step, the soft-delete step having affected at least one row,
every row with that id ending with deletedBy and deletedAt set, and a
second delete of the same id reporting NOT_FOUND. -/
theorem delete_soft_delete_contract (s : DBState) (u : UserId) (now i : Int) :
    (findOsTemplate s i = none →
      deleteOsTemplate s u now i = (.error ⟨.E1006, errMsg .E1006⟩, s)) ∧
    (∀ t0, findOsTemplate s i = some t0 →
      ∃ s', deleteOsTemplate s u now i = (.ok (), s') ∧
        s' = softDeleteOsTemplate
          (saveOsTemplate s { t0 with deletedBy := u, updatedAt := now }) i now ∧
        0 < softDeleteAffected
          (saveOsTemplate s { t0 with deletedBy := u, updatedAt := now }) i ∧
        (∀ r ∈ s'.osTemplates, r.id = i → r.deletedBy = u ∧ r.deletedAt = some now) ∧
        findOsTemplate s' i = none ∧
        (∀ (u2 : UserId) (now2 : Int),
          deleteOsTemplate s' u2 now2 i = (.error ⟨.E1006, errMsg .E1006⟩, s'))) := by
  constructor
  · intro h
    simp [deleteOsTemplate, h]
  · intro t0 ht
    have ht' : s.osTemplates.find? (fun r => r.id == i && r.deletedAt == none) = some t0 := ht
    have hp := List.find?_some ht'
    simp only [Bool.and_eq_true, beq_iff_eq] at hp
    obtain ⟨hid, hdel⟩ := hp
    have hmem : t0 ∈ s.osTemplates := List.mem_of_find?_eq_some ht'
    have ht1mem : ({ t0 with deletedBy := u, updatedAt := now } : OsTemplateRow) ∈
        (saveOsTemplate s { t0 with deletedBy := u, updatedAt := now }).osTemplates := by
      unfold saveOsTemplate
      refine List.mem_map.mpr ⟨t0, hmem, ?_⟩
      simp
    have haff : 0 < softDeleteAffected
        (saveOsTemplate s { t0 with deletedBy := u, updatedAt := now }) i := by
      unfold softDeleteAffected
      refine List.length_pos.mpr (List.ne_nil_of_mem (List.mem_filter.mpr ⟨ht1mem, ?_⟩))
      simp [hid]
    have hrows : ∀ r ∈ (softDeleteOsTemplate
          (saveOsTemplate s { t0 with deletedBy := u, updatedAt := now }) i now).osTemplates,
        r.id = i → r.deletedBy = u ∧ r.deletedAt = some now := by
      intro r hr hri
      rcases mem_softDeleteOsTemplate hr with ⟨r1, hr1, hri1, rfl⟩ | ⟨_, hne⟩
      · rcases mem_saveOsTemplate hr1 with ⟨rfl, _⟩ | ⟨_, hne1⟩
        · exact ⟨rfl, rfl⟩
        · exact absurd (hri1.trans hid.symm) hne1
      · exact absurd hri hne
    have hfind2 : findOsTemplate (softDeleteOsTemplate
        (saveOsTemplate s { t0 with deletedBy := u, updatedAt := now }) i now) i = none := by
      unfold findOsTemplate
      rw [List.find?_eq_none]
      intro r hr
      rcases mem_softDeleteOsTemplate hr with ⟨r1, _, _, rfl⟩ | ⟨_, hne⟩
      · simp
      · simp [hne]
    refine ⟨_, ?_, rfl, haff, hrows, hfind2, ?_⟩
    · unfold deleteOsTemplate
      rw [ht]
      dsimp only
      rw [if_pos haff]
    · intro u2 now2
      simp [deleteOsTemplate, hfind2]

/-- Witness for delete_soft_delete_contract: the missing id 99 and the live
fixture template id 4. -/
theorem delete_soft_delete_contract_w :
    (findOsTemplate dbFix 99 = none ∧
      deleteOsTemplate dbFix none 9 99 = (.error ⟨.E1006, errMsg .E1006⟩, dbFix)) ∧
    (findOsTemplate dbFix 4 = some tplFix ∧
      ∃ s', deleteOsTemplate dbFix none 9 4 = (.ok (), s') ∧
        s' = softDeleteOsTemplate
          (saveOsTemplate dbFix { tplFix with deletedBy := none, updatedAt := 9 }) 4 9 ∧
        0 < softDeleteAffected
          (saveOsTemplate dbFix { tplFix with deletedBy := none, updatedAt := 9 }) 4 ∧
        (∀ r ∈ s'.osTemplates, r.id = 4 → r.deletedBy = none ∧ r.deletedAt = some 9) ∧
        findOsTemplate s' 4 = none ∧
        (∀ (u2 : UserId) (now2 : Int),
          deleteOsTemplate s' u2 now2 4 = (.error ⟨.E1006, errMsg .E1006⟩, s'))) :=
  ⟨⟨by decide, (delete_soft_delete_contract dbFix none 9 99).1 (by decide)⟩,
   ⟨by decide, (delete_soft_delete_contract dbFix none 9 4).2 tplFix (by decide)⟩⟩

/-- C9: a successful catalog update overwrites exactly the supplied
attributes (absent attributes, and always icon, createdBy, createdAt and
id, keep the fetched row's values), sets updatedBy to the acting principal
and updatedAt to the save time, persists only that one row, and with the
empty partial body changes no writable field at all. -/
theorem catalog_partial_update_frame (s s' : DBState) (u : UserId) (now i : Int)
    (b : CatalogPutBody) (c0 c' : CatalogRow)
    (hc : findCatalog s i = some c0)
    (h : updateCatalog s u now i b = (.ok c', s')) :
    c'.id = c0.id ∧ c'.createdBy = c0.createdBy ∧ c'.createdAt = c0.createdAt ∧
    c'.icon = c0.icon ∧ c'.deletedBy = c0.deletedBy ∧ c'.deletedAt = c0.deletedAt ∧
    c'.updatedBy = u ∧ c'.updatedAt = now ∧
    c'.name = b.name.getD c0.name ∧
    c'.shortName = b.shortName.getD c0.shortName ∧
    c'.defaultLeasePeriod = b.defaultLeasePeriod.getD c0.defaultLeasePeriod ∧
    c'.permittedMaxLeaseExtensions =
      b.permittedMaxLeaseExtensions.getD c0.permittedMaxLeaseExtensions ∧
    c'.type = b.type.getD c0.type ∧
    (b.defaultTemplate = none → c'.defaultTemplate = c0.defaultTemplate) ∧
    (b.defaultApprovalPolicy = none → c'.defaultApprovalPolicy = c0.defaultApprovalPolicy) ∧
    s' = saveCatalog s c' ∧
    (b = emptyCatalogPutBody →
      c'.name = c0.name ∧ c'.shortName = c0.shortName ∧
      c'.defaultTemplate = c0.defaultTemplate ∧
      c'.defaultApprovalPolicy = c0.defaultApprovalPolicy ∧
      c'.defaultLeasePeriod = c0.defaultLeasePeriod ∧
      c'.permittedMaxLeaseExtensions = c0.permittedMaxLeaseExtensions ∧
      c'.type = c0.type) := by
  obtain ⟨bn, bs, bdt, bap, blp, bpm, bty⟩ := b
  unfold updateCatalog at h
  rw [hc] at h
  dsimp only at h
  rcases bdt with _ | did
  · rcases bap with _ | aid
    · dsimp only at h
      repeat' split at h
      all_goals simp only [Prod.mk.injEq] at h
      all_goals obtain ⟨h1, h2⟩ := h
      all_goals (injection h1 with h1; subst h1; subst h2; simp [emptyCatalogPutBody])
    · dsimp only at h
      rcases hap : findApprovalPolicy s aid with _ | ap
      · rw [hap] at h; simp at h
      · rw [hap] at h
        dsimp only at h
        repeat' split at h
        all_goals simp only [Prod.mk.injEq] at h
        all_goals obtain ⟨h1, h2⟩ := h
        all_goals (injection h1 with h1; subst h1; subst h2; simp [emptyCatalogPutBody])
  · dsimp only at h
    rcases hdt : findOsTemplate s did with _ | dt
    · rw [hdt] at h; simp at h
    · rw [hdt] at h
      rcases bap with _ | aid
      · dsimp only at h
        repeat' split at h
        all_goals simp only [Prod.mk.injEq] at h
        all_goals obtain ⟨h1, h2⟩ := h
        all_goals (injection h1 with h1; subst h1; subst h2; simp [emptyCatalogPutBody])
      · dsimp only at h
        rcases hap : findApprovalPolicy s aid with _ | ap
        · rw [hap] at h; simp at h
        · rw [hap] at h
          dsimp only at h
          repeat' split at h
          all_goals simp only [Prod.mk.injEq] at h
          all_goals obtain ⟨h1, h2⟩ := h
          all_goals (injection h1 with h1; subst h1; subst h2; simp [emptyCatalogPutBody])

/-- Partial body used by the catalog update witness. -/
def wCatBody : CatalogPutBody :=
  ⟨some "NewName", none, none, none, none, none, some .Custom⟩

/-- Row produced by the witness catalog update. -/
def wCatUpd : CatalogRow :=
  ⟨7, "NewName", none, "CT", 4, 6, 5, 10, .Custom, none, none, none, 0, 9, none⟩

/-- Witness for catalog_partial_update_frame: a two-attribute partial update
of the fixture catalog. -/
theorem catalog_partial_update_frame_w :
    (findCatalog dbFix 7 = some catFix ∧
      updateCatalog dbFix none 9 7 wCatBody = (.ok wCatUpd, saveCatalog dbFix wCatUpd)) ∧
    (wCatUpd.id = catFix.id ∧ wCatUpd.createdBy = catFix.createdBy ∧
      wCatUpd.createdAt = catFix.createdAt ∧ wCatUpd.icon = catFix.icon ∧
      wCatUpd.deletedBy = catFix.deletedBy ∧ wCatUpd.deletedAt = catFix.deletedAt ∧
      wCatUpd.updatedBy = none ∧ wCatUpd.updatedAt = 9 ∧
      wCatUpd.name = wCatBody.name.getD catFix.name ∧
      wCatUpd.shortName = wCatBody.shortName.getD catFix.shortName ∧
      wCatUpd.defaultLeasePeriod = wCatBody.defaultLeasePeriod.getD catFix.defaultLeasePeriod ∧
      wCatUpd.permittedMaxLeaseExtensions =
        wCatBody.permittedMaxLeaseExtensions.getD catFix.permittedMaxLeaseExtensions ∧
      wCatUpd.type = wCatBody.type.getD catFix.type ∧
      (wCatBody.defaultTemplate = none → wCatUpd.defaultTemplate = catFix.defaultTemplate) ∧
      (wCatBody.defaultApprovalPolicy = none →
        wCatUpd.defaultApprovalPolicy = catFix.defaultApprovalPolicy) ∧
      saveCatalog dbFix wCatUpd = saveCatalog dbFix wCatUpd ∧
      (wCatBody = emptyCatalogPutBody →
        wCatUpd.name = catFix.name ∧ wCatUpd.shortName = catFix.shortName ∧
        wCatUpd.defaultTemplate = catFix.defaultTemplate ∧
        wCatUpd.defaultApprovalPolicy = catFix.defaultApprovalPolicy ∧
        wCatUpd.defaultLeasePeriod = catFix.defaultLeasePeriod ∧
        wCatUpd.permittedMaxLeaseExtensions = catFix.permittedMaxLeaseExtensions ∧
        wCatUpd.type = catFix.type)) :=
  ⟨⟨by decide, by decide⟩,
    catalog_partial_update_frame dbFix (saveCatalog dbFix wCatUpd) none 9 7 wCatBody
      catFix wCatUpd (by decide) (by decide)⟩

/-- C10: list validation only checks numericness of limit, so the literal 0
and negative values pass; with limit 0 the handler still answers, and the
reported pages is Math.ceil(count/0), a non-finite number whenever the live
count is positive. -/
theorem fetchAll_limit_zero_pages_not_finite (s : DBState)
    (h : 0 < (liveOsTemplates s).length) :
    (numericStr "0" = true ∧ numericStr "-5" = true) ∧
    (∃ r, fetchAllOsTemplates s none (some "0") none [] [] = .ok r ∧
      r.pages = .posInf ∧ r.pages.isFinite = false) ∧
    (∃ r, fetchAllOsTemplates s none (some "-5") none [] [] = .ok r) := by
  have hj : jsCeilDiv (liveOsTemplates s).length 0 = .posInf := by
    unfold jsCeilDiv
    rw [if_pos rfl, if_neg (Nat.pos_iff_ne_zero.mp h)]
  refine ⟨⟨by decide, by decide⟩, ?_, ?_⟩
  · refine ⟨⟨[], (liveOsTemplates s).length, .posInf⟩, ?_, rfl, rfl⟩
    simp [fetchAllOsTemplates,
      show validateFetchAllOsTemplates none (some "0") none [] [] = .ok () from by decide,
      show parseIntJs "0" = 0 from by decide, hj]
  · refine ⟨⟨[], (liveOsTemplates s).length,
      jsCeilDiv (liveOsTemplates s).length (-5)⟩, ?_⟩
    simp [fetchAllOsTemplates,
      show validateFetchAllOsTemplates none (some "-5") none [] [] = .ok () from by decide,
      show parseIntJs "-5" = -5 from by decide]

/-- Witness for fetchAll_limit_zero_pages_not_finite at the one-row fixture
store. -/
theorem fetchAll_limit_zero_pages_not_finite_w :
    0 < (liveOsTemplates dbFix).length ∧
    ((numericStr "0" = true ∧ numericStr "-5" = true) ∧
      (∃ r, fetchAllOsTemplates dbFix none (some "0") none [] [] = .ok r ∧
        r.pages = .posInf ∧ r.pages.isFinite = false) ∧
      (∃ r, fetchAllOsTemplates dbFix none (some "-5") none [] [] = .ok r)) :=
  ⟨by decide, fetchAll_limit_zero_pages_not_finite dbFix (by decide)⟩
